import Mathlib

/-!
Shallow embedding of the `remotec` remote command execution service
(`src/remotec.go` and `src/unnamed/part_000`, the latter being the newer
revision that adds `stopAll` and POST parameter parsing).

The embedding models the execution lifecycle manager: the command runner
(`executeCommand`), the execution registry (`registerExecution`,
`cleanExecution`, `handleStop`, `handleStopAll`) and the execution
strategies (`handleSingle`, `handleMultiple`, `handleLoop`).

External effects are modelled explicitly:
  * a subprocess run (`cmd.CombinedOutput`) is an environment-supplied
    `RunOutcome`: its combined output text, the cause of its termination,
    and its wall-clock duration (in whole ticks; the Go code stores
    float64 seconds, the model abstracts time as natural-number ticks);
  * a `context.Context`'s cancellation signal is a latching oracle
    `firedAt : Option Nat`: `some k` means the signal is observed from the
    k-th cancellation check onward, `none` means it never fires;
  * `crypto/rand.Read` either succeeds with a byte list or fails
    (`Option (List Nat)`), matching the code's fallback branch;
  * the registry is an association list with unique keys, mirroring the
    Go map `executions` guarded by `execLock`.
-/

namespace Remotec

/-- Why a `cmd.CombinedOutput` call ended: the process exited with status
zero, exited non-zero, could not be spawned at all, or was killed because
the cancellation context fired while it was still running.  Go reports a
non-nil error in every case except a zero exit. -/
inductive ExitCause
  | exitZero
  | exitNonZero
  | spawnError
  | killedByCancel
deriving DecidableEq, Repr

/-- Environment-supplied outcome of one subprocess run: the combined
stdout+stderr text, the termination cause, and the wall-clock duration. -/
structure RunOutcome where
  output : String
  cause : ExitCause
  duration : Nat
deriving DecidableEq, Repr

/-- Whether `cmd.CombinedOutput` returns a non-nil `err` for this cause:
true exactly when the process did not exit with status zero. -/
def combinedOutputErr (c : ExitCause) : Bool :=
  match c with
  | ExitCause.exitZero => false
  | ExitCause.exitNonZero => true
  | ExitCause.spawnError => true
  | ExitCause.killedByCancel => true

/-- The `CommandResult` struct of the Go source.  `execSecond` is float64
seconds in Go; the model uses natural-number ticks. -/
structure CommandResult where
  execID : String := ""
  status : String := ""
  command : String := ""
  message : String := ""
  execTime : String := ""
  execSecond : Nat := 0
  output : String := ""
deriving DecidableEq, Repr

/-- `executeCommand` of the Go source: build a COMPLETED result from the
subprocess outcome, then overwrite the status with FAILED when
`CombinedOutput` reported an error.  It is a total function: failure is
returned in the status field, never thrown. -/
def executeCommand (o : RunOutcome) (execID cmd t : String) : CommandResult :=
  let result : CommandResult :=
    { execID := execID
      status := "COMPLETED"
      command := cmd
      execTime := t
      execSecond := o.duration
      output := o.output }
  if combinedOutputErr o.cause then { result with status := "FAILED" } else result

/-- The `Execution` struct: identifier, the cancellation handle (modelled
as the token of the context it cancels), and the `Stopped` flag. -/
structure Execution where
  id : String
  ctx : Nat
  stopped : Bool
deriving DecidableEq, Repr

/-- The process-wide mutable state: the `executions` map (association
list with unique keys) and the set of context tokens whose cancel
function has been invoked (as a list). -/
structure ServerState where
  executions : List (String × Execution)
  cancelled : List Nat
deriving DecidableEq, Repr

/-- The initial state: empty registry, nothing cancelled. -/
def emptyState : ServerState := { executions := [], cancelled := [] }

/-- `registerExecution`: insert `id ↦ Execution{ID: id, Cancel: cancel}`
into the map (`Stopped` starts false, the Go zero value).  Map insertion
overwrites, hence the filter. -/
def registerExecution (id : String) (ctx : Nat) (s : ServerState) : ServerState :=
  { s with executions :=
      (id, { id := id, ctx := ctx, stopped := false }) ::
        s.executions.filter (fun p => p.1 != id) }

/-- `cleanExecution`: `delete(executions, id)` without touching the
cancellation handle. -/
def cleanExecution (id : String) (s : ServerState) : ServerState :=
  { s with executions := s.executions.filter (fun p => p.1 != id) }

/-- Registry lookup, as `executions[execID]` in Go. -/
def lookupExec (id : String) (s : ServerState) : Option Execution :=
  s.executions.lookup id

/-- An HTTP response body: either a `CommandResult` encoded by
`sendResponse`, or an error object `{error: msg}` from `sendError`. -/
inductive HttpBody
  | result (r : CommandResult)
  | errMsg (msg : String)
deriving DecidableEq, Repr

/-- An HTTP response: status code plus body. -/
structure Response where
  code : Nat
  body : HttpBody
deriving DecidableEq, Repr

/-- `sendResponse(w, r, http.StatusOK)`. -/
def okResponse (r : CommandResult) : Response :=
  { code := 200, body := HttpBody.result r }

/-- `sendError(w, msg, code)`. -/
def errorResponse (msg : String) (code : Nat) : Response :=
  { code := code, body := HttpBody.errMsg msg }

/-- The status field carried by a response, when the body is a result. -/
def respStatus (r : Response) : Option String :=
  match r.body with
  | HttpBody.result cr => some cr.status
  | HttpBody.errMsg _ => none

/-- The output field carried by a response, when the body is a result. -/
def respOutput (r : Response) : Option String :=
  match r.body with
  | HttpBody.result cr => some cr.output
  | HttpBody.errMsg _ => none

/-- `handleSingle`: register, run the command once synchronously, clean
up, then send a response built from scratch — status hardcoded to
COMPLETED, message "单次执行", only the output copied from the runner's
result.  The handler-level duration coincides with the single run's
duration in this time model. -/
def handleSingle (o : RunOutcome) (execID : String) (ctx : Nat) (cmd t : String)
    (s : ServerState) : ServerState × Response :=
  let s1 := registerExecution execID ctx s
  let result := executeCommand o execID cmd t
  let s2 := cleanExecution execID s1
  (s2, okResponse
    { execID := execID
      status := "COMPLETED"
      command := cmd
      message := "单次执行"
      execTime := t
      execSecond := o.duration
      output := result.output })

/-- `handleStop`: 400 when `exec_id` is missing; otherwise look up the
id under the lock — if present, invoke its cancel function, set the
`Stopped` flag, delete the entry and answer STOPPED; if absent answer
404. -/
def handleStop (execID : String) (s : ServerState) : ServerState × Response :=
  if execID == "" then (s, errorResponse "缺少exec_id参数" 400)
  else
    match s.executions.lookup execID with
    | some e =>
        let marked := s.executions.map
          (fun p => if p.1 == execID then (p.1, { p.2 with stopped := true }) else p)
        ({ executions := marked.filter (fun p => p.1 != execID)
           cancelled := e.ctx :: s.cancelled },
         okResponse { execID := execID, status := "STOPPED" })
    | none => (s, errorResponse "无效的exec_id" 404)

/-- `handleStopAll`: under the lock, invoke every registered cancel
function (setting each `Stopped` flag along the way), replace the map by
a fresh empty one, and answer STOPPED_ALL with the count in the
message. -/
def handleStopAll (s : ServerState) : ServerState × Response :=
  let stoppedCount := s.executions.length
  ({ executions := []
     cancelled := s.executions.map (fun p => p.2.ctx) ++ s.cancelled },
   okResponse
     { status := "STOPPED_ALL"
       message := "已停止" ++ toString stoppedCount ++ "个正在执行的任务" })

/-- Whether the cancellation signal is observed at the i-th check of a
context: the signal latches, so once fired it stays fired. -/
def ctxFired (firedAt : Option Nat) (i : Nat) : Bool :=
  match firedAt with
  | none => false
  | some k => decide (k ≤ i)

/-- Result of `handleMultiple`'s synchronous loop: how many runner
invocations happened, the last result if any, whether the loop aborted
via the `ctx.Done()` branch, and the accumulated wall clock. -/
structure MultiLoopOut where
  invocations : Nat
  last : Option CommandResult
  aborted : Bool
  clock : Nat
deriving Repr

/-- Per-iteration wall-clock cost in `handleMultiple`: the run's
duration, plus the sleep when `delay > 0` and this is not the last
iteration. -/
def iterCost (env : Nat → RunOutcome) (delayN n j : Nat) : Nat :=
  (env j).duration + (if delayN > 0 ∧ j < n - 1 then delayN else 0)

/-- The `for i := 0; i < count; i++` loop of `handleMultiple`: before
each iteration the `select` checks `ctx.Done()` and returns early when
the signal has fired; otherwise the command runs and, when `delay > 0`
and more iterations remain, the loop sleeps. Recursion is on the number
of remaining iterations. -/
def multiStep (env : Nat → RunOutcome) (firedAt : Option Nat) (execID cmd t : String)
    (n delayN : Nat) :
    Nat → Nat → Option CommandResult → Nat → MultiLoopOut
  | 0, i, last, clock => { invocations := i, last := last, aborted := false, clock := clock }
  | remaining + 1, i, last, clock =>
      if ctxFired firedAt i then
        { invocations := i, last := last, aborted := true, clock := clock }
      else
        multiStep env firedAt execID cmd t n delayN remaining (i + 1)
          (some (executeCommand (env i) execID cmd t))
          (clock + iterCost env delayN n i)

/-- `handleMultiple` (part_000 revision): coerce the count with
`max(params.Count, 1)`, register, run the loop synchronously, and — via
the deferred `cleanExecution` — remove the registry entry on both the
normal and the early-cancellation exit.  On an early exit no response is
written at all (`none`); otherwise the response is built from scratch
with status COMPLETED, the total elapsed clock, and the last run's
output. -/
def handleMultiple (env : Nat → RunOutcome) (firedAt : Option Nat)
    (count delay : Int) (execID : String) (ctx : Nat) (cmd t : String)
    (s : ServerState) : ServerState × Option Response :=
  let n := (max count 1).toNat
  let delayN := delay.toNat
  let s1 := registerExecution execID ctx s
  let out := multiStep env firedAt execID cmd t n delayN n 0 none 0
  let s2 := cleanExecution execID s1
  if out.aborted then (s2, none)
  else
    (s2, some (okResponse
      { execID := execID
        status := "COMPLETED"
        command := cmd
        message := "多次执行，次数：" ++ toString n ++ "，间隔：" ++ toString delay ++ "秒"
        execTime := t
        execSecond := out.clock
        output := (match out.last with | some r => r.output | none => "") }))

/-- `handleLoop`: register the execution, start the background goroutine
(modelled separately), and immediately answer STARTED. -/
def handleLoop (delay : Int) (execID : String) (ctx : Nat) (cmd t : String)
    (s : ServerState) : ServerState × Response :=
  (registerExecution execID ctx s,
   okResponse
     { execID := execID
       status := "STARTED"
       command := cmd
       message := "循环执行，间隔：" ++ toString delay ++ "秒"
       execTime := t })

/-- The runs performed by the loop goroutine before it observes the
cancellation signal at check `k`: one `executeCommand` per check that
found the context still live. -/
def loopBackgroundRuns (env : Nat → RunOutcome) (execID cmd t : String) (k : Nat) :
    List CommandResult :=
  (List.range k).map (fun i => executeCommand (env i) execID cmd t)

/-- The deferred `cleanExecution` that the loop goroutine runs when it
observes cancellation and exits. -/
def loopBackgroundExit (execID : String) (s : ServerState) : ServerState :=
  cleanExecution execID s

/-- The character table of `encoding/hex`: digit `n < 16` maps to
"0123456789abcdef". -/
def hexDigitChar (n : Nat) : Char :=
  if n < 10 then Char.ofNat (48 + n) else Char.ofNat (87 + n)

/-- The character list built by `hex.EncodeToString`: each byte
contributes its high nibble's character followed by its low nibble's
character. -/
def hexEncodeChars (bs : List Nat) : List Char :=
  bs.foldr (fun b acc => hexDigitChar (b / 16) :: hexDigitChar (b % 16) :: acc) []

/-- `hex.EncodeToString` itself. -/
def hexEncodeToString (bs : List Nat) : String :=
  String.mk (hexEncodeChars bs)

/-- `generateID`: read 8 bytes from `crypto/rand` and hex-encode them;
when the read fails, fall back to the decimal text of the current
nanosecond timestamp (`fmt.Sprintf` with the verb for a decimal
integer).  The random read is an environment input: `some bs` is a
successful read of the byte list `bs`, `none` a failed read. -/
def generateID (randBytes : Option (List Nat)) (nowUnixNano : Int) : String :=
  match randBytes with
  | some b => hexEncodeToString b
  | none => toString nowUnixNano

/-- The digit-consuming loop of `strconv.Atoi`: fails on the first
non-decimal-digit character, otherwise accumulates base 10. -/
def decDigitsAux : List Char → Nat → Option Nat
  | [], acc => some acc
  | c :: cs, acc =>
      if c.isDigit then decDigitsAux cs (acc * 10 + (c.toNat - 48)) else none

/-- `strconv.Atoi`'s digit parsing after the sign: the empty digit
string is a syntax error. -/
def decDigits : List Char → Option Nat
  | [] => none
  | c :: cs => decDigitsAux (c :: cs) 0

/-- `strconv.Atoi` with the error discarded, exactly as the handlers
call it (`count, _ := strconv.Atoi(...)`): an optional single sign
followed by at least one decimal digit parses to its value; any syntax
error (empty string included) leaves the Go zero value 0.  The model
uses unbounded integers, so the range-error branch of `ParseInt` does
not arise. -/
def goAtoi (s : String) : Int :=
  match s.data with
  | [] => 0
  | c :: rest =>
      if c = '+' then (match decDigits rest with | some n => (n : Int) | none => 0)
      else if c = '-' then (match decDigits rest with | some n => -(n : Int) | none => 0)
      else (match decDigits (c :: rest) with | some n => (n : Int) | none => 0)

/-- Whether a string is syntactically a valid integer for
`strconv.Atoi`: optional sign, then one or more decimal digits. -/
def goIntSyntaxOK (s : String) : Bool :=
  match s.data with
  | [] => false
  | c :: rest =>
      if c = '+' then !rest.isEmpty && rest.all Char.isDigit
      else if c = '-' then !rest.isEmpty && rest.all Char.isDigit
      else (c :: rest).all Char.isDigit

/-- The raw query-string values of a GET request; an absent parameter is
the empty string, as `r.URL.Query().Get` returns. -/
structure QueryVals where
  action : String := ""
  delay : String := ""
  count : String := ""
  exec_id : String := ""
deriving DecidableEq, Repr

/-- The normalized `RequestParams` struct. -/
structure RequestParams where
  action : String
  delay : Int
  count : Int
  execID : String
deriving DecidableEq, Repr

/-- GET-branch parameter parsing of `requestHandler`: each integer field
comes from `strconv.Atoi` with the error ignored. -/
def parseGetParams (q : QueryVals) : RequestParams :=
  { action := q.action
    delay := goAtoi q.delay
    count := goAtoi q.count
    execID := q.exec_id }

/-- The terminal statuses of the execution state machine. -/
def isTerminalStatus (st : String) : Bool :=
  st == "COMPLETED" || st == "FAILED" || st == "STOPPED"

/-- The registry snapshots along the Single strategy's lifecycle,
labelled by the state-machine phase: CREATED right after registration,
RUNNING while the runner executes (the registry is not touched during
the run), then the runner result's terminal status after the cleanup. -/
def singleLifecycle (o : RunOutcome) (execID : String) (ctx : Nat) (cmd t : String)
    (s : ServerState) : List (String × ServerState) :=
  let s1 := registerExecution execID ctx s
  let result := executeCommand o execID cmd t
  let s2 := cleanExecution execID s1
  [("CREATED", s1), ("RUNNING", s1), (result.status, s2)]

/-- Projection of a registry entry that forgets the `Stopped` flag. -/
def execKey (p : String × Execution) : String × String × Nat :=
  (p.1, p.2.id, p.2.ctx)

/-- Two states that agree on everything except the `Stopped` flags of
their registered executions. -/
def eqModStopped (s1 s2 : ServerState) : Prop :=
  s1.executions.map execKey = s2.executions.map execKey ∧ s1.cancelled = s2.cancelled

/-- No registered execution has its `Stopped` flag set. -/
def allFlagsFalse (s : ServerState) : Prop :=
  ∀ p ∈ s.executions, p.2.stopped = false

/-! ## Registry lemmas -/

theorem lookup_filter_self (id : String) (l : List (String × Execution)) :
    (l.filter (fun p => p.1 != id)).lookup id = none := by
  induction l with
  | nil => rfl
  | cons p tl ih =>
      by_cases h : p.1 = id
      · simp [List.filter_cons, h, ih]
      · have hb : (p.1 != id) = true := by simp [bne_iff_ne, h]
        have hb2 : (id == p.1) = false := by
          simp [beq_eq_false_iff_ne]
          exact fun hc => h hc.symm
        simp [List.filter_cons, hb, List.lookup, hb2, ih]

theorem lookup_register_self (id : String) (ctx : Nat) (s : ServerState) :
    lookupExec id (registerExecution id ctx s) =
      some { id := id, ctx := ctx, stopped := false } := by
  simp [lookupExec, registerExecution, List.lookup]

theorem lookup_clean_self (id : String) (s : ServerState) :
    lookupExec id (cleanExecution id s) = none :=
  lookup_filter_self id s.executions

/-! ## Claim theorems -/

/-- C2: the Runner's Result has status FAILED exactly when the
subprocess exited non-zero, could not be spawned, or was killed by
cancellation before completing, and COMPLETED exactly when it exited
zero; the status is always one of the two, i.e. every invocation yields
a well-formed Result rather than raising the failure. -/
theorem executeCommand_status_spec (o : RunOutcome) (execID cmd t : String) :
    ((executeCommand o execID cmd t).status = "FAILED" ↔
      (o.cause = ExitCause.exitNonZero ∨ o.cause = ExitCause.spawnError ∨
        o.cause = ExitCause.killedByCancel)) ∧
    ((executeCommand o execID cmd t).status = "COMPLETED" ↔
      o.cause = ExitCause.exitZero) ∧
    ((executeCommand o execID cmd t).status = "FAILED" ∨
      (executeCommand o execID cmd t).status = "COMPLETED") := by
  obtain ⟨out, cause, dur⟩ := o
  cases cause <;> simp [executeCommand, combinedOutputErr]

/-- C1 counterexample: with a subprocess that exits non-zero, the
Runner's Result has status FAILED, yet the HTTP response of the Single
strategy carries status COMPLETED — the response is not the Runner's
Result returned directly. -/
theorem handleSingle_claim_counterexample :
    (executeCommand { output := "boom", cause := ExitCause.exitNonZero, duration := 1 }
      "id1" "cmd" "t").status = "FAILED" ∧
    respStatus (handleSingle
      { output := "boom", cause := ExitCause.exitNonZero, duration := 1 }
      "id1" 0 "cmd" "t" emptyState).2 = some "COMPLETED" ∧
    some "COMPLETED" ≠ some "FAILED" := by decide

/-- C1 amended: for every Single trigger the HTTP response carries
status COMPLETED regardless of how the fixed command exited, with the
process's combined output copied into the output field; the Runner's own
Result (logged, not returned) is the one that carries FAILED on a
non-zero exit and COMPLETED on a zero exit. -/
theorem handleSingle_response_spec (o : RunOutcome) (execID : String) (ctx : Nat)
    (cmd t : String) (s : ServerState) :
    respStatus (handleSingle o execID ctx cmd t s).2 = some "COMPLETED" ∧
    respOutput (handleSingle o execID ctx cmd t s).2 =
      some (executeCommand o execID cmd t).output ∧
    (executeCommand o execID cmd t).status =
      (if o.cause = ExitCause.exitZero then "COMPLETED" else "FAILED") := by
  obtain ⟨out, cause, dur⟩ := o
  cases cause <;>
    simp [handleSingle, respStatus, respOutput, okResponse, executeCommand,
      combinedOutputErr]

/-- C3: after `register(id, h)`, the first stop of `id` invokes the
cancellation handle, removes `id` from the registry and answers STOPPED;
a second stop of the same `id` finds it absent, answers the 404
NOT_FOUND error, and leaves the state unchanged. -/
theorem register_then_stop_twice (s : ServerState) (id : String) (ctx : Nat)
    (h : id ≠ "") :
    (handleStop id (registerExecution id ctx s)).2 =
      okResponse { execID := id, status := "STOPPED" } ∧
    ctx ∈ (handleStop id (registerExecution id ctx s)).1.cancelled ∧
    lookupExec id (handleStop id (registerExecution id ctx s)).1 = none ∧
    (handleStop id (handleStop id (registerExecution id ctx s)).1).2 =
      errorResponse "无效的exec_id" 404 ∧
    (handleStop id (handleStop id (registerExecution id ctx s)).1).1 =
      (handleStop id (registerExecution id ctx s)).1 := by
  have hb : (id == "") = false := by simp [beq_eq_false_iff_ne, h]
  have hlk : (registerExecution id ctx s).executions.lookup id =
      some { id := id, ctx := ctx, stopped := false } :=
    lookup_register_self id ctx s
  have hstop :
      (handleStop id (registerExecution id ctx s)).1.executions.lookup id = none := by
    simp only [handleStop, hb, Bool.false_eq_true, if_false, hlk]
    exact lookup_filter_self id _
  refine ⟨?_, ?_, ?_, ?_, ?_⟩
  · simp [handleStop, hb, hlk]
  · simp [handleStop, hb, hlk]
  · exact hstop
  · generalize hS : (handleStop id (registerExecution id ctx s)).1 = S2 at hstop
    simp [handleStop, hb, hstop]
  · generalize hS : (handleStop id (registerExecution id ctx s)).1 = S2 at hstop ⊢
    simp [handleStop, hb, hstop]

theorem handleStop_notFound (id : String) (s : ServerState) (h : id ≠ "")
    (hn : s.executions.lookup id = none) :
    handleStop id s = (s, errorResponse "无效的exec_id" 404) := by
  have hb : (id == "") = false := by simp [beq_eq_false_iff_ne, h]
  simp [handleStop, hb, hn]

theorem handleStop_found (id : String) (s : ServerState) (e : Execution)
    (h : id ≠ "") (he : s.executions.lookup id = some e) :
    (handleStop id s).1.executions.lookup id = none ∧
    (handleStop id s).2 = okResponse { execID := id, status := "STOPPED" } ∧
    (handleStop id s).1.cancelled = e.ctx :: s.cancelled := by
  have hb : (id == "") = false := by simp [beq_eq_false_iff_ne, h]
  simp [handleStop, hb, he, lookup_filter_self]

/-- C4: cancelAll invokes the cancellation handle of every registered
Execution, empties the registry map entirely, and reports the count of
executions cancelled in its message; any stop of an id registered before
it then finds the registry empty and answers the 404 NOT_FOUND error. -/
theorem stopAll_spec (s : ServerState) (id : String) (h1 : id ≠ "")
    (h2 : (lookupExec id s).isSome = true) :
    (handleStopAll s).1.executions = [] ∧
    (∀ p ∈ s.executions, p.2.ctx ∈ (handleStopAll s).1.cancelled) ∧
    (handleStopAll s).2 = okResponse
      { status := "STOPPED_ALL"
        message := "已停止" ++ toString s.executions.length ++ "个正在执行的任务" } ∧
    (handleStop id (handleStopAll s).1).2 = errorResponse "无效的exec_id" 404 ∧
    (handleStop id (handleStopAll s).1).1 = (handleStopAll s).1 := by
  have hempty : (handleStopAll s).1.executions = [] := rfl
  have hstop : handleStop id (handleStopAll s).1 =
      ((handleStopAll s).1, errorResponse "无效的exec_id" 404) :=
    handleStop_notFound id _ h1 (by rw [hempty]; rfl)
  refine ⟨hempty, ?_, rfl, by rw [hstop], by rw [hstop]⟩
  intro p hp
  show p.2.ctx ∈ s.executions.map (fun q => q.2.ctx) ++ s.cancelled
  exact List.mem_append_left _ (List.mem_map_of_mem _ hp)

/-- C4 witness at a concrete one-entry registry. -/
theorem stopAll_spec_witness :
    ("a1" : String) ≠ "" ∧
    (lookupExec "a1" (registerExecution "a1" 7 emptyState)).isSome = true ∧
    ((handleStopAll (registerExecution "a1" 7 emptyState)).1.executions = [] ∧
    (∀ p ∈ (registerExecution "a1" 7 emptyState).executions,
        p.2.ctx ∈ (handleStopAll (registerExecution "a1" 7 emptyState)).1.cancelled) ∧
    (handleStopAll (registerExecution "a1" 7 emptyState)).2 = okResponse
      { status := "STOPPED_ALL"
        message := "已停止" ++
          toString (registerExecution "a1" 7 emptyState).executions.length ++
          "个正在执行的任务" } ∧
    (handleStop "a1" (handleStopAll (registerExecution "a1" 7 emptyState)).1).2 =
      errorResponse "无效的exec_id" 404 ∧
    (handleStop "a1" (handleStopAll (registerExecution "a1" 7 emptyState)).1).1 =
      (handleStopAll (registerExecution "a1" 7 emptyState)).1) :=
  ⟨by decide, by decide,
    stopAll_spec (registerExecution "a1" 7 emptyState) "a1" (by decide) (by decide)⟩

/-! ## Loop lemmas for the Multiple strategy -/

theorem multiStep_no_fire (env : Nat → RunOutcome) (firedAt : Option Nat)
    (execID cmd t : String) (n delayN : Nat) :
    ∀ (r i : Nat) (last : Option CommandResult) (clock : Nat),
      (∀ j, j < i + r → ctxFired firedAt j = false) →
      multiStep env firedAt execID cmd t n delayN r i last clock =
        { invocations := i + r
          last := if r = 0 then last
            else some (executeCommand (env (i + r - 1)) execID cmd t)
          aborted := false
          clock := clock + ((List.range' i r).map (iterCost env delayN n)).sum } := by
  intro r
  induction r with
  | zero =>
      intro i last clock hfire
      simp [multiStep]
  | succ r ih =>
      intro i last clock hfire
      have h0 : ctxFired firedAt i = false := hfire i (by omega)
      rw [multiStep, h0]
      simp only [Bool.false_eq_true, if_false]
      rw [ih (i + 1) _ _ (fun j hj => hfire j (by omega))]
      have hrange : List.range' i (r + 1) = i :: List.range' (i + 1) r :=
        List.range'_succ i r 1
      rcases Nat.eq_zero_or_pos r with hr | hr
      · subst hr
        simp [hrange, iterCost]
      · have hne : r ≠ 0 := by omega
        simp only [hne, if_false, Nat.succ_ne_zero]
        rw [hrange]
        simp only [List.map_cons, List.sum_cons]
        have hidx : i + 1 + r - 1 = i + (r + 1) - 1 := by omega
        have hinv : i + 1 + r = i + (r + 1) := by omega
        rw [hidx, hinv]
        congr 1
        omega

theorem multiStep_fired (env : Nat → RunOutcome) (firedAt : Option Nat)
    (execID cmd t : String) (n delayN : Nat) (k : Nat) (hf : firedAt = some k) :
    ∀ (r i : Nat) (last : Option CommandResult) (clock : Nat), i ≤ k → k < i + r →
      (multiStep env firedAt execID cmd t n delayN r i last clock).aborted = true ∧
      (multiStep env firedAt execID cmd t n delayN r i last clock).invocations = k := by
  intro r
  induction r with
  | zero =>
      intro i last clock h1 h2
      omega
  | succ r ih =>
      intro i last clock h1 h2
      by_cases hik : k ≤ i
      · have hk : i = k := by omega
        have h0 : ctxFired firedAt i = true := by simp [ctxFired, hf, hik]
        rw [multiStep, h0]
        simp [hk]
      · have h0 : ctxFired firedAt i = false := by
          simp [ctxFired, hf]
          omega
        rw [multiStep, h0]
        simp only [Bool.false_eq_true, if_false]
        exact ih (i + 1) _ _ (by omega) (by omega)

theorem handleMultiple_state (env : Nat → RunOutcome) (firedAt : Option Nat)
    (count delay : Int) (execID : String) (ctx : Nat) (cmd t : String)
    (s : ServerState) :
    (handleMultiple env firedAt count delay execID ctx cmd t s).1 =
      cleanExecution execID (registerExecution execID ctx s) := by
  simp only [handleMultiple]
  split <;> rfl

/-- C5: a Multiple trigger that runs to normal completion (the
cancellation signal never fires during its window) invokes the Runner
exactly `max(count, 1)` times — so a count of 0 or negative yields one
run — and its single final response has status COMPLETED, the total
elapsed ticks accumulated across all iterations (runs plus the
inter-iteration sleeps), and the output of the last iteration only. -/
theorem handleMultiple_complete_spec (env : Nat → RunOutcome) (firedAt : Option Nat)
    (count delay : Int) (execID : String) (ctx : Nat) (cmd t : String)
    (s : ServerState)
    (h : ∀ i, i < (max count 1).toNat → ctxFired firedAt i = false) :
    (multiStep env firedAt execID cmd t (max count 1).toNat delay.toNat
        (max count 1).toNat 0 none 0).invocations = (max count 1).toNat ∧
    (handleMultiple env firedAt count delay execID ctx cmd t s).2 = some (okResponse
      { execID := execID
        status := "COMPLETED"
        command := cmd
        message := "多次执行，次数：" ++ toString ((max count 1).toNat) ++
          "，间隔：" ++ toString delay ++ "秒"
        execTime := t
        execSecond := ((List.range ((max count 1).toNat)).map
          (iterCost env delay.toNat ((max count 1).toNat))).sum
        output := (executeCommand (env ((max count 1).toNat - 1)) execID cmd t).output }) ∧
    1 ≤ (max count 1).toNat ∧
    (count ≤ 0 → (max count 1).toNat = 1) ∧
    (0 < count → ((max count 1).toNat : Int) = count) := by
  have hn : 1 ≤ (max count 1).toNat := by omega
  have hne : (max count 1).toNat ≠ 0 := by omega
  have hms := multiStep_no_fire env firedAt execID cmd t (max count 1).toNat
    delay.toNat (max count 1).toNat 0 none 0 (fun j hj => h j (by omega))
  refine ⟨?_, ?_, hn, by omega, by omega⟩
  · rw [hms]
    simp
  · simp only [handleMultiple]
    rw [hms]
    simp [hne, List.range_eq_range']

/-- C5 witness: count 3, delay 0, cancellation never fires. -/
theorem handleMultiple_complete_spec_witness :
    (∀ i, i < (max (3 : Int) 1).toNat → ctxFired none i = false) ∧
    ((multiStep (fun j => { output := toString j, cause := ExitCause.exitZero, duration := 1 })
        none "a1" "cmd" "t" (max (3 : Int) 1).toNat (0 : Int).toNat
        (max (3 : Int) 1).toNat 0 none 0).invocations = (max (3 : Int) 1).toNat ∧
    (handleMultiple (fun j => { output := toString j, cause := ExitCause.exitZero, duration := 1 })
        none 3 0 "a1" 7 "cmd" "t" emptyState).2 = some (okResponse
      { execID := "a1"
        status := "COMPLETED"
        command := "cmd"
        message := "多次执行，次数：" ++ toString ((max (3 : Int) 1).toNat) ++
          "，间隔：" ++ toString (0 : Int) ++ "秒"
        execTime := "t"
        execSecond := ((List.range ((max (3 : Int) 1).toNat)).map
          (iterCost (fun j => { output := toString j, cause := ExitCause.exitZero, duration := 1 })
            (0 : Int).toNat ((max (3 : Int) 1).toNat))).sum
        output := (executeCommand
          ((fun j => ({ output := toString j, cause := ExitCause.exitZero, duration := 1 } : RunOutcome))
            ((max (3 : Int) 1).toNat - 1)) "a1" "cmd" "t").output }) ∧
    1 ≤ (max (3 : Int) 1).toNat ∧
    ((3 : Int) ≤ 0 → (max (3 : Int) 1).toNat = 1) ∧
    ((0 : Int) < 3 → ((max (3 : Int) 1).toNat : Int) = 3)) :=
  ⟨by decide,
    handleMultiple_complete_spec
      (fun j => { output := toString j, cause := ExitCause.exitZero, duration := 1 })
      none 3 0 "a1" 7 "cmd" "t" emptyState (by decide)⟩

/-- C6: when the cancellation signal has fired before iteration `k` of a
Multiple trigger (the check happens before every iteration, the first
included), the loop stops after exactly `k` runner invocations, the
handler produces no final response at all, and the deferred registry
cleanup still removes the execution's identifier on this early exit. -/
theorem handleMultiple_cancelled_spec (env : Nat → RunOutcome) (firedAt : Option Nat)
    (count delay : Int) (execID : String) (ctx : Nat) (cmd t : String)
    (s : ServerState) (k : Nat)
    (hf : firedAt = some k) (hk : k < (max count 1).toNat) :
    (handleMultiple env firedAt count delay execID ctx cmd t s).2 = none ∧
    (multiStep env firedAt execID cmd t (max count 1).toNat delay.toNat
        (max count 1).toNat 0 none 0).invocations = k ∧
    lookupExec execID (handleMultiple env firedAt count delay execID ctx cmd t s).1 =
      none := by
  have hms := multiStep_fired env firedAt execID cmd t (max count 1).toNat
    delay.toNat k hf (max count 1).toNat 0 none 0 (by omega) (by omega)
  refine ⟨?_, hms.2, ?_⟩
  · simp only [handleMultiple]
    simp [hms.1]
  · rw [handleMultiple_state]
    exact lookup_clean_self execID _

/-- C6 witness: the signal has already fired before the first check. -/
theorem handleMultiple_cancelled_spec_witness :
    (some 0 : Option Nat) = some 0 ∧ 0 < (max (3 : Int) 1).toNat ∧
    ((handleMultiple (fun j => { output := toString j, cause := ExitCause.exitZero, duration := 1 })
        (some 0) 3 0 "a1" 7 "cmd" "t" emptyState).2 = none ∧
    (multiStep (fun j => { output := toString j, cause := ExitCause.exitZero, duration := 1 })
        (some 0) "a1" "cmd" "t" (max (3 : Int) 1).toNat (0 : Int).toNat
        (max (3 : Int) 1).toNat 0 none 0).invocations = 0 ∧
    lookupExec "a1" (handleMultiple
        (fun j => { output := toString j, cause := ExitCause.exitZero, duration := 1 })
        (some 0) 3 0 "a1" 7 "cmd" "t" emptyState).1 = none) :=
  ⟨rfl, by decide,
    handleMultiple_cancelled_spec
      (fun j => { output := toString j, cause := ExitCause.exitZero, duration := 1 })
      (some 0) 3 0 "a1" 7 "cmd" "t" emptyState 0 rfl (by decide)⟩

theorem executeCommand_status_terminal (o : RunOutcome) (execID cmd t : String) :
    isTerminalStatus (executeCommand o execID cmd t).status = true := by
  obtain ⟨out, cause, dur⟩ := o
  cases cause <;> rfl

/-- C7: an identifier is present in the Registry exactly while its
Execution has not yet reached a terminal status.  Along the Single
strategy's lifecycle the id is present in the CREATED and RUNNING phases
and absent once the runner's terminal status is reached; the Multiple
strategy's deferred cleanup removes the id on every exit path; the Loop
strategy's id is present after the STARTED acknowledgment and gone once
stopped and the background goroutine has exited.  In every case a later
stop on the identifier answers the 404 NOT_FOUND error. -/
theorem registry_presence_lifecycle (o : RunOutcome) (env : Nat → RunOutcome)
    (firedAt : Option Nat) (count delay : Int) (id : String) (ctx : Nat)
    (cmd t : String) (s : ServerState) (h : id ≠ "") :
    (∀ ph ∈ singleLifecycle o id ctx cmd t s,
        (lookupExec id ph.2).isSome = !isTerminalStatus ph.1) ∧
    lookupExec id (handleSingle o id ctx cmd t s).1 = none ∧
    (handleStop id (handleSingle o id ctx cmd t s).1).2 =
      errorResponse "无效的exec_id" 404 ∧
    lookupExec id (handleMultiple env firedAt count delay id ctx cmd t s).1 = none ∧
    (handleStop id (handleMultiple env firedAt count delay id ctx cmd t s).1).2 =
      errorResponse "无效的exec_id" 404 ∧
    (lookupExec id (handleLoop delay id ctx cmd t s).1).isSome =
      !isTerminalStatus "STARTED" ∧
    (handleStop id (handleLoop delay id ctx cmd t s).1).2 =
      okResponse { execID := id, status := "STOPPED" } ∧
    lookupExec id
      (loopBackgroundExit id (handleStop id (handleLoop delay id ctx cmd t s).1).1) =
      none ∧
    (handleStop id
      (loopBackgroundExit id
        (handleStop id (handleLoop delay id ctx cmd t s).1).1)).2 =
      errorResponse "无效的exec_id" 404 := by
  have hsingle : (handleSingle o id ctx cmd t s).1 =
      cleanExecution id (registerExecution id ctx s) := rfl
  have hloop : (handleLoop delay id ctx cmd t s).1 = registerExecution id ctx s := rfl
  have hclean : lookupExec id (cleanExecution id (registerExecution id ctx s)) = none :=
    lookup_clean_self id _
  refine ⟨?_, ?_, ?_, ?_, ?_, ?_, ?_, ?_, ?_⟩
  · intro ph hph
    simp only [singleLifecycle, List.mem_cons, List.not_mem_nil, or_false] at hph
    rcases hph with h1 | h1 | h1 <;> subst h1
    · simp [lookup_register_self, isTerminalStatus]
    · simp [lookup_register_self, isTerminalStatus]
    · simp [executeCommand_status_terminal, hclean]
  · rw [hsingle]; exact hclean
  · rw [hsingle]
    rw [handleStop_notFound id _ h hclean]
  · rw [handleMultiple_state]; exact lookup_clean_self id _
  · rw [handleMultiple_state]
    rw [handleStop_notFound id _ h (lookup_clean_self id _)]
  · rw [hloop]
    simp [lookup_register_self, isTerminalStatus]
  · rw [hloop]
    exact (handleStop_found id _ _ h (lookup_register_self id ctx s)).2.1
  · exact lookup_clean_self id _
  · exact (handleStop_notFound id _ h (lookup_clean_self id _)) ▸ rfl

/-- C7 witness at concrete inputs. -/
theorem registry_presence_lifecycle_witness :
    ("a1" : String) ≠ "" ∧
    ((∀ ph ∈ singleLifecycle { output := "ok", cause := ExitCause.exitZero, duration := 1 }
        "a1" 7 "cmd" "t" emptyState,
        (lookupExec "a1" ph.2).isSome = !isTerminalStatus ph.1) ∧
    lookupExec "a1" (handleSingle { output := "ok", cause := ExitCause.exitZero, duration := 1 }
        "a1" 7 "cmd" "t" emptyState).1 = none ∧
    (handleStop "a1" (handleSingle { output := "ok", cause := ExitCause.exitZero, duration := 1 }
        "a1" 7 "cmd" "t" emptyState).1).2 = errorResponse "无效的exec_id" 404 ∧
    lookupExec "a1" (handleMultiple
        (fun j => { output := toString j, cause := ExitCause.exitZero, duration := 1 })
        none 2 0 "a1" 7 "cmd" "t" emptyState).1 = none ∧
    (handleStop "a1" (handleMultiple
        (fun j => { output := toString j, cause := ExitCause.exitZero, duration := 1 })
        none 2 0 "a1" 7 "cmd" "t" emptyState).1).2 = errorResponse "无效的exec_id" 404 ∧
    (lookupExec "a1" (handleLoop 0 "a1" 7 "cmd" "t" emptyState).1).isSome =
      !isTerminalStatus "STARTED" ∧
    (handleStop "a1" (handleLoop 0 "a1" 7 "cmd" "t" emptyState).1).2 =
      okResponse { execID := "a1", status := "STOPPED" } ∧
    lookupExec "a1"
      (loopBackgroundExit "a1"
        (handleStop "a1" (handleLoop 0 "a1" 7 "cmd" "t" emptyState).1).1) = none ∧
    (handleStop "a1"
      (loopBackgroundExit "a1"
        (handleStop "a1" (handleLoop 0 "a1" 7 "cmd" "t" emptyState).1).1)).2 =
      errorResponse "无效的exec_id" 404) :=
  ⟨by decide,
    registry_presence_lifecycle
      { output := "ok", cause := ExitCause.exitZero, duration := 1 }
      (fun j => { output := toString j, cause := ExitCause.exitZero, duration := 1 })
      none 2 0 "a1" 7 "cmd" "t" emptyState (by decide)⟩

/-! ## Identifier generation lemmas -/

theorem hexEncodeChars_length (bs : List Nat) :
    (hexEncodeChars bs).length = 2 * bs.length := by
  induction bs with
  | nil => rfl
  | cons b tl ih =>
      simp only [hexEncodeChars, List.foldr_cons, List.length_cons] at ih ⊢
      omega

theorem hexEncodeToString_length (bs : List Nat) :
    (hexEncodeToString bs).length = 2 * bs.length :=
  hexEncodeChars_length bs

theorem hexDigitChar_injOn :
    ∀ m, m < 16 → ∀ n, n < 16 → hexDigitChar m = hexDigitChar n → m = n := by decide

theorem hexEncodeChars_injOn (bs bs2 : List Nat)
    (hb : ∀ b ∈ bs, b < 256) (hb2 : ∀ b ∈ bs2, b < 256)
    (h : hexEncodeChars bs = hexEncodeChars bs2) : bs = bs2 := by
  induction bs generalizing bs2 with
  | nil =>
      cases bs2 with
      | nil => rfl
      | cons c tl2 => simp [hexEncodeChars] at h
  | cons b tl ih =>
      cases bs2 with
      | nil => simp [hexEncodeChars] at h
      | cons c tl2 =>
          simp only [hexEncodeChars, List.foldr_cons, List.cons.injEq] at h
          obtain ⟨h1, h2, h3⟩ := h
          have hbb : b < 256 := hb b (List.mem_cons_self b tl)
          have hcc : c < 256 := hb2 c (List.mem_cons_self c tl2)
          have hd1 : b / 16 = c / 16 :=
            hexDigitChar_injOn (b / 16) (by omega) (c / 16) (by omega) h1
          have hd2 : b % 16 = c % 16 :=
            hexDigitChar_injOn (b % 16) (by omega) (c % 16) (by omega) h2
          have hbc : b = c := by omega
          have htl : tl = tl2 :=
            ih tl2 (fun x hx => hb x (List.mem_cons_of_mem b hx))
              (fun x hx => hb2 x (List.mem_cons_of_mem c hx)) h3
          rw [hbc, htl]

/-- A string that is the hex encoding of some 8-byte sequence. -/
def isHexEncodingOfEightBytes (str : String) : Prop :=
  ∃ bs : List Nat, bs.length = 8 ∧ (∀ b ∈ bs, b < 256) ∧ str = hexEncodeToString bs

/-- C8 counterexample: when the read from the crypto random source
fails, `generateID` falls back to the decimal nanosecond timestamp,
which is not the hex encoding of any 8-byte sequence (its length is 19,
not 16) — so not every execution identifier is derived from the
cryptographically random byte sequence. -/
theorem generateID_fallback_counterexample :
    generateID none 1700000000000000000 = "1700000000000000000" ∧
    ¬ isHexEncodingOfEightBytes (generateID none 1700000000000000000) := by
  refine ⟨by decide, ?_⟩
  rintro ⟨bs, hlen, hbytes, hstr⟩
  have h1 : (generateID none 1700000000000000000).length = 19 := by decide
  have h2 : (hexEncodeToString bs).length = 16 := by
    rw [hexEncodeToString_length, hlen]
  rw [hstr, h2] at h1
  omega

/-- C8 amended: when the read from the crypto random source succeeds,
the execution identifier is the hex encoding of the 8 random bytes — a
16-character token on which the encoding is injective, so distinct
random byte sequences always yield distinct identifiers; when the read
fails, the identifier falls back to the decimal text of the nanosecond
timestamp. -/
theorem generateID_spec (bs : List Nat) (nowNano : Int)
    (hlen : bs.length = 8) (hbytes : ∀ b ∈ bs, b < 256) :
    generateID (some bs) nowNano = hexEncodeToString bs ∧
    (generateID (some bs) nowNano).length = 16 ∧
    (∀ bs2 : List Nat, (∀ b ∈ bs2, b < 256) →
        generateID (some bs2) nowNano = generateID (some bs) nowNano → bs2 = bs) ∧
    generateID none nowNano = toString nowNano := by
  refine ⟨rfl, ?_, ?_, rfl⟩
  · show (hexEncodeToString bs).length = 16
    rw [hexEncodeToString_length, hlen]
  · intro bs2 hb2 heq
    exact hexEncodeChars_injOn bs2 bs hb2 hbytes (congrArg String.data heq)

/-- C8 amended witness at a concrete byte sequence. -/
theorem generateID_spec_witness :
    ([0, 17, 34, 51, 68, 85, 102, 119] : List Nat).length = 8 ∧
    (∀ b ∈ ([0, 17, 34, 51, 68, 85, 102, 119] : List Nat), b < 256) ∧
    (generateID (some [0, 17, 34, 51, 68, 85, 102, 119]) 0 =
        hexEncodeToString [0, 17, 34, 51, 68, 85, 102, 119] ∧
      (generateID (some [0, 17, 34, 51, 68, 85, 102, 119]) 0).length = 16 ∧
      (∀ bs2 : List Nat, (∀ b ∈ bs2, b < 256) →
          generateID (some bs2) 0 = generateID (some [0, 17, 34, 51, 68, 85, 102, 119]) 0 →
          bs2 = [0, 17, 34, 51, 68, 85, 102, 119]) ∧
      generateID none 0 = toString (0 : Int)) :=
  ⟨by decide, by decide,
    generateID_spec [0, 17, 34, 51, 68, 85, 102, 119] 0 (by decide) (by decide)⟩

/-! ## strconv.Atoi lemmas -/

theorem decDigitsAux_none (cs : List Char) (h : cs.all Char.isDigit = false) :
    ∀ a, decDigitsAux cs a = none := by
  induction cs with
  | nil => simp at h
  | cons c tl ih =>
      intro a
      by_cases hc : c.isDigit
      · simp only [List.all_cons, hc, Bool.true_and] at h
        simp only [decDigitsAux, hc, if_true]
        exact ih h _
      · simp [decDigitsAux, hc]

theorem decDigits_none (cs : List Char)
    (h : (!cs.isEmpty && cs.all Char.isDigit) = false) : decDigits cs = none := by
  cases cs with
  | nil => rfl
  | cons c tl =>
      simp only [List.isEmpty_cons, Bool.not_false, Bool.true_and] at h
      exact decDigitsAux_none (c :: tl) h 0

theorem goAtoi_syntax_err (s : String) (h : goIntSyntaxOK s = false) : goAtoi s = 0 := by
  simp only [goIntSyntaxOK] at h
  simp only [goAtoi]
  cases hd : s.data with
  | nil => rfl
  | cons c rest =>
      rw [hd] at h
      by_cases hp : c = '+'
      · simp only [hp, if_true] at h ⊢
        rw [decDigits_none rest h]
      · by_cases hm : c = '-'
        · subst hm
          have hne : ('-' : Char) ≠ '+' := by decide
          simp only [if_neg hne, if_pos rfl, if_true] at h ⊢
          rw [decDigits_none rest h]
        · simp only [hp, hm, if_false] at h ⊢
          cases hdd : decDigits (c :: rest) with
          | none => rfl
          | some n =>
              have : decDigits (c :: rest) = none := by
                apply decDigits_none
                simp [h]
              rw [this] at hdd
              cases hdd

/-- C9: a non-integer (or absent) `count` or `delay` query parameter is
silently parsed as 0 rather than rejected: `action=multiple` with a
malformed count then runs the command exactly once (`max(0,1)` = 1
iteration), and a malformed delay contributes no pause — the elapsed
time of the single-iteration run is exactly the run's own duration. -/
theorem malformed_query_int_spec (q : QueryVals) (env : Nat → RunOutcome)
    (execID : String) (ctx : Nat) (cmd t : String) (s : ServerState)
    (hc : goIntSyntaxOK q.count = false) (hd : goIntSyntaxOK q.delay = false) :
    (parseGetParams q).count = 0 ∧
    (parseGetParams q).delay = 0 ∧
    (multiStep env none execID cmd t (max (parseGetParams q).count 1).toNat
        (parseGetParams q).delay.toNat (max (parseGetParams q).count 1).toNat
        0 none 0).invocations = 1 ∧
    (handleMultiple env none (parseGetParams q).count (parseGetParams q).delay
        execID ctx cmd t s).2 = some (okResponse
      { execID := execID
        status := "COMPLETED"
        command := cmd
        message := "多次执行，次数：" ++ toString (1 : Nat) ++ "，间隔：" ++
          toString (0 : Int) ++ "秒"
        execTime := t
        execSecond := (env 0).duration
        output := (executeCommand (env 0) execID cmd t).output }) := by
  have hcount : (parseGetParams q).count = 0 := by
    simp [parseGetParams, goAtoi_syntax_err _ hc]
  have hdelay : (parseGetParams q).delay = 0 := by
    simp [parseGetParams, goAtoi_syntax_err _ hd]
  have hmax : (max (0 : Int) 1).toNat = 1 := by decide
  refine ⟨hcount, hdelay, ?_, ?_⟩
  · rw [hcount, hdelay, hmax]
    rfl
  · rw [hcount, hdelay]
    simp only [handleMultiple, hmax]
    simp [multiStep, ctxFired, iterCost]

/-- C9 witness: count absent (empty string), delay malformed. -/
theorem malformed_query_int_spec_witness :
    goIntSyntaxOK ({ action := "multiple", delay := "abc", count := "" } : QueryVals).count =
      false ∧
    goIntSyntaxOK ({ action := "multiple", delay := "abc", count := "" } : QueryVals).delay =
      false ∧
    ((parseGetParams { action := "multiple", delay := "abc", count := "" }).count = 0 ∧
    (parseGetParams { action := "multiple", delay := "abc", count := "" }).delay = 0 ∧
    (multiStep (fun j => { output := toString j, cause := ExitCause.exitZero, duration := 5 })
        none "a1" "cmd" "t"
        (max (parseGetParams { action := "multiple", delay := "abc", count := "" }).count 1).toNat
        (parseGetParams { action := "multiple", delay := "abc", count := "" }).delay.toNat
        (max (parseGetParams { action := "multiple", delay := "abc", count := "" }).count 1).toNat
        0 none 0).invocations = 1 ∧
    (handleMultiple (fun j => { output := toString j, cause := ExitCause.exitZero, duration := 5 })
        none (parseGetParams { action := "multiple", delay := "abc", count := "" }).count
        (parseGetParams { action := "multiple", delay := "abc", count := "" }).delay
        "a1" 7 "cmd" "t" emptyState).2 = some (okResponse
      { execID := "a1"
        status := "COMPLETED"
        command := "cmd"
        message := "多次执行，次数：" ++ toString (1 : Nat) ++ "，间隔：" ++
          toString (0 : Int) ++ "秒"
        execTime := "t"
        execSecond := ((fun (j : Nat) =>
          ({ output := toString j, cause := ExitCause.exitZero, duration := 5 } : RunOutcome)) 0).duration
        output := (executeCommand
          ((fun (j : Nat) =>
            ({ output := toString j, cause := ExitCause.exitZero, duration := 5 } : RunOutcome)) 0)
          "a1" "cmd" "t").output })) :=
  ⟨by decide, by decide,
    malformed_query_int_spec { action := "multiple", delay := "abc", count := "" }
      (fun j => { output := toString j, cause := ExitCause.exitZero, duration := 5 })
      "a1" 7 "cmd" "t" emptyState (by decide) (by decide)⟩

/-! ## Frame lemmas for the Stopped flag -/

theorem lookup_eq_mod (id : String) :
    ∀ L1 L2 : List (String × Execution), L1.map execKey = L2.map execKey →
      (L1.lookup id).map (fun e => e.ctx) = (L2.lookup id).map (fun e => e.ctx) ∧
      (L1.lookup id).isSome = (L2.lookup id).isSome := by
  intro L1
  induction L1 with
  | nil =>
      intro L2 h
      cases L2 with
      | nil => exact ⟨rfl, rfl⟩
      | cons q tl2 => simp at h
  | cons p tl ih =>
      intro L2 h
      cases L2 with
      | nil => simp at h
      | cons q tl2 =>
          simp only [List.map_cons, List.cons.injEq, execKey, Prod.mk.injEq] at h
          obtain ⟨⟨hk, _, hctx⟩, htl⟩ := h
          by_cases hid : id == p.1
          · have hid2 : (id == q.1) = true := by rw [← hk]; exact hid
            simp [List.lookup, hid, hid2, hctx]
          · have hidf : (id == p.1) = false := by
              cases hx : (id == p.1) with
              | false => rfl
              | true => exact absurd hx hid
            have hid2 : (id == q.1) = false := by rw [← hk]; exact hidf
            simp only [List.lookup, hidf, hid2]
            exact ih tl2 htl

theorem filter_map_execKey (id : String) :
    ∀ L1 L2 : List (String × Execution), L1.map execKey = L2.map execKey →
      (L1.filter (fun p => p.1 != id)).map execKey =
        (L2.filter (fun p => p.1 != id)).map execKey := by
  intro L1
  induction L1 with
  | nil =>
      intro L2 h
      cases L2 with
      | nil => rfl
      | cons q tl2 => simp at h
  | cons p tl ih =>
      intro L2 h
      cases L2 with
      | nil => simp at h
      | cons q tl2 =>
          simp only [List.map_cons, List.cons.injEq] at h
          obtain ⟨hpq, htl⟩ := h
          have hk : p.1 = q.1 := congrArg (fun k => k.1) hpq
          by_cases hid : p.1 = id
          · have hf1 : (p.1 != id) = false := by simp [hid]
            have hf2 : (q.1 != id) = false := by simp [← hk, hid]
            simp [List.filter_cons, hf1, hf2]
            exact ih tl2 htl
          · have ht1 : (p.1 != id) = true := by simp [hid]
            have ht2 : (q.1 != id) = true := by simp [← hk, hid]
            simp [List.filter_cons, ht1, ht2]
            exact ⟨hpq, ih tl2 htl⟩

theorem marked_map_execKey (id : String) (L : List (String × Execution)) :
    (L.map (fun p => if p.1 == id then (p.1, { p.2 with stopped := true }) else p)).map
        execKey = L.map execKey := by
  induction L with
  | nil => rfl
  | cons p tl ih =>
      simp only [List.map_cons, List.cons.injEq]
      refine ⟨?_, ih⟩
      by_cases hid : p.1 == id
      · simp [hid, execKey]
      · simp [hid]

theorem eqModStopped_register (id : String) (ctx : Nat) (s1 s2 : ServerState)
    (h : eqModStopped s1 s2) :
    eqModStopped (registerExecution id ctx s1) (registerExecution id ctx s2) := by
  obtain ⟨hmap, hcanc⟩ := h
  refine ⟨?_, hcanc⟩
  simp only [registerExecution, List.map_cons, List.cons.injEq]
  exact ⟨trivial, filter_map_execKey id _ _ hmap⟩

theorem eqModStopped_clean (id : String) (s1 s2 : ServerState)
    (h : eqModStopped s1 s2) :
    eqModStopped (cleanExecution id s1) (cleanExecution id s2) := by
  obtain ⟨hmap, hcanc⟩ := h
  exact ⟨filter_map_execKey id _ _ hmap, hcanc⟩

theorem allFlagsFalse_filter (id : String) (s : ServerState) (h : allFlagsFalse s) :
    allFlagsFalse (cleanExecution id s) := by
  intro p hp
  exact h p (List.mem_of_mem_filter hp)

theorem allFlagsFalse_register (id : String) (ctx : Nat) (s : ServerState)
    (h : allFlagsFalse s) : allFlagsFalse (registerExecution id ctx s) := by
  intro p hp
  rcases List.mem_cons.mp hp with h1 | h1
  · rw [h1]
  · exact h p (List.mem_of_mem_filter h1)

theorem allFlagsFalse_handleStop (id : String) (s : ServerState)
    (h : allFlagsFalse s) : allFlagsFalse (handleStop id s).1 := by
  by_cases hb : id == ""
  · simp [handleStop, hb]; exact h
  · simp only [handleStop, hb, Bool.false_eq_true, if_false]
    cases hl : s.executions.lookup id with
    | none => exact h
    | some e =>
        intro p hp
        have hp1 := List.mem_of_mem_filter hp
        have hp2 := List.of_mem_filter hp
        rcases List.mem_map.mp hp1 with ⟨p0, hp0, hp0e⟩
        by_cases hid : p0.1 == id
        · rw [← hp0e] at hp2
          simp only [hid, if_true] at hp2
          simp at hp2
          exact absurd (by simpa using hid) hp2
        · rw [← hp0e]
          simp only [hid, Bool.false_eq_true, if_false]
          exact h p0 hp0

/-- C10: the `Stopped` flag is unobservable.  Two states that agree on
everything except the flags of their registered executions produce equal
responses under every operation and evolve to states that again agree
except for flags; moreover — since `register` creates the flag false,
and stop/stopAll set it true only on the entry they delete in the same
locked block — every reachable registry state has all flags false, so
the value set by stop/stopAll is never visible anywhere. -/
theorem stopped_flag_unobservable (s1 s2 : ServerState) (id : String) (ctx0 : Nat)
    (o : RunOutcome) (env : Nat → RunOutcome) (firedAt : Option Nat)
    (count delay : Int) (cmd t : String)
    (h : eqModStopped s1 s2) :
    ((handleStop id s1).2 = (handleStop id s2).2 ∧
      eqModStopped (handleStop id s1).1 (handleStop id s2).1) ∧
    ((handleStopAll s1).2 = (handleStopAll s2).2 ∧
      eqModStopped (handleStopAll s1).1 (handleStopAll s2).1) ∧
    ((handleSingle o id ctx0 cmd t s1).2 = (handleSingle o id ctx0 cmd t s2).2 ∧
      eqModStopped (handleSingle o id ctx0 cmd t s1).1
        (handleSingle o id ctx0 cmd t s2).1) ∧
    ((handleMultiple env firedAt count delay id ctx0 cmd t s1).2 =
        (handleMultiple env firedAt count delay id ctx0 cmd t s2).2 ∧
      eqModStopped (handleMultiple env firedAt count delay id ctx0 cmd t s1).1
        (handleMultiple env firedAt count delay id ctx0 cmd t s2).1) ∧
    ((handleLoop delay id ctx0 cmd t s1).2 = (handleLoop delay id ctx0 cmd t s2).2 ∧
      eqModStopped (handleLoop delay id ctx0 cmd t s1).1
        (handleLoop delay id ctx0 cmd t s2).1) ∧
    (allFlagsFalse s1 →
      allFlagsFalse (registerExecution id ctx0 s1) ∧
      allFlagsFalse (cleanExecution id s1) ∧
      allFlagsFalse (handleStop id s1).1 ∧
      allFlagsFalse (handleStopAll s1).1 ∧
      allFlagsFalse (handleSingle o id ctx0 cmd t s1).1 ∧
      allFlagsFalse (handleMultiple env firedAt count delay id ctx0 cmd t s1).1 ∧
      allFlagsFalse (handleLoop delay id ctx0 cmd t s1).1) := by
  obtain ⟨hmap, hcanc⟩ := h
  have hsingle1 : (handleSingle o id ctx0 cmd t s1).1 =
      cleanExecution id (registerExecution id ctx0 s1) := rfl
  have hsingle2 : (handleSingle o id ctx0 cmd t s2).1 =
      cleanExecution id (registerExecution id ctx0 s2) := rfl
  have hregclean : eqModStopped
      (cleanExecution id (registerExecution id ctx0 s1))
      (cleanExecution id (registerExecution id ctx0 s2)) :=
    eqModStopped_clean id _ _ (eqModStopped_register id ctx0 s1 s2 ⟨hmap, hcanc⟩)
  refine ⟨?_, ?_, ?_, ?_, ?_, ?_⟩
  · by_cases hb : id == ""
    · simp only [handleStop, hb, if_true]
      exact ⟨by simp, hmap, hcanc⟩
    · simp only [handleStop, hb, Bool.false_eq_true, if_false]
      obtain ⟨hctx, hsome⟩ := lookup_eq_mod id s1.executions s2.executions hmap
      cases hl1 : s1.executions.lookup id with
      | none =>
          have hl2 : s2.executions.lookup id = none := by
            rw [hl1] at hsome
            cases hl2x : s2.executions.lookup id with
            | none => rfl
            | some e => rw [hl2x] at hsome; simp at hsome
          simp only [hl2]
          exact ⟨by simp, hmap, hcanc⟩
      | some e1 =>
          have : ∃ e2, s2.executions.lookup id = some e2 ∧ e2.ctx = e1.ctx := by
            rw [hl1] at hsome hctx
            cases hl2x : s2.executions.lookup id with
            | none => rw [hl2x] at hsome; simp at hsome
            | some e2 =>
                rw [hl2x] at hctx
                simp at hctx
                exact ⟨e2, rfl, hctx.symm⟩
          obtain ⟨e2, hl2, hectx⟩ := this
          simp only [hl2]
          refine ⟨by simp, ?_, ?_⟩
          · exact filter_map_execKey id _ _
              ((marked_map_execKey id s1.executions).trans
                (hmap.trans (marked_map_execKey id s2.executions).symm))
          · rw [hectx, hcanc]
  · have hlen : s1.executions.length = s2.executions.length := by
      have := congrArg List.length hmap
      simpa using this
    have hctxs : s1.executions.map (fun p => p.2.ctx) =
        s2.executions.map (fun p => p.2.ctx) := by
      have := congrArg (List.map (fun k : String × String × Nat => k.2.2)) hmap
      simpa [List.map_map, Function.comp] using this
    constructor
    · simp only [handleStopAll, hlen]
    · exact ⟨rfl, by simp only [handleStopAll]; rw [hctxs, hcanc]⟩
  · exact ⟨rfl, by rw [hsingle1, hsingle2]; exact hregclean⟩
  · constructor
    · simp only [handleMultiple]
      cases hab : (multiStep env firedAt id cmd t (max count 1).toNat delay.toNat
          (max count 1).toNat 0 none 0).aborted <;> simp [hab]
    · rw [handleMultiple_state, handleMultiple_state]
      exact hregclean
  · exact ⟨rfl, eqModStopped_register id ctx0 s1 s2 ⟨hmap, hcanc⟩⟩
  · intro hA
    have hreg : allFlagsFalse (registerExecution id ctx0 s1) :=
      allFlagsFalse_register id ctx0 s1 hA
    refine ⟨hreg, allFlagsFalse_filter id s1 hA, allFlagsFalse_handleStop id s1 hA,
      ?_, ?_, ?_, hreg⟩
    · intro p hp
      simp [handleStopAll] at hp
    · rw [hsingle1]
      exact allFlagsFalse_filter id _ hreg
    · rw [handleMultiple_state]
      exact allFlagsFalse_filter id _ hreg

/-- C10 witness: two concrete states differing only in a Stopped flag. -/
theorem stopped_flag_unobservable_witness :
    eqModStopped
      { executions := [("a1", { id := "a1", ctx := 5, stopped := false })], cancelled := [3] }
      { executions := [("a1", { id := "a1", ctx := 5, stopped := true })], cancelled := [3] } ∧
    ((handleStop "a1"
        { executions := [("a1", { id := "a1", ctx := 5, stopped := false })],
          cancelled := [3] }).2 =
      (handleStop "a1"
        { executions := [("a1", { id := "a1", ctx := 5, stopped := true })],
          cancelled := [3] }).2 ∧
      eqModStopped
        (handleStop "a1"
          { executions := [("a1", { id := "a1", ctx := 5, stopped := false })],
            cancelled := [3] }).1
        (handleStop "a1"
          { executions := [("a1", { id := "a1", ctx := 5, stopped := true })],
            cancelled := [3] }).1) ∧
    ((handleStopAll
        { executions := [("a1", { id := "a1", ctx := 5, stopped := false })],
          cancelled := [3] }).2 =
      (handleStopAll
        { executions := [("a1", { id := "a1", ctx := 5, stopped := true })],
          cancelled := [3] }).2 ∧
      eqModStopped
        (handleStopAll
          { executions := [("a1", { id := "a1", ctx := 5, stopped := false })],
            cancelled := [3] }).1
        (handleStopAll
          { executions := [("a1", { id := "a1", ctx := 5, stopped := true })],
            cancelled := [3] }).1) ∧
    ((handleSingle { output := "ok", cause := ExitCause.exitZero, duration := 1 }
        "a1" 7 "cmd" "t"
        { executions := [("a1", { id := "a1", ctx := 5, stopped := false })],
          cancelled := [3] }).2 =
      (handleSingle { output := "ok", cause := ExitCause.exitZero, duration := 1 }
        "a1" 7 "cmd" "t"
        { executions := [("a1", { id := "a1", ctx := 5, stopped := true })],
          cancelled := [3] }).2 ∧
      eqModStopped
        (handleSingle { output := "ok", cause := ExitCause.exitZero, duration := 1 }
          "a1" 7 "cmd" "t"
          { executions := [("a1", { id := "a1", ctx := 5, stopped := false })],
            cancelled := [3] }).1
        (handleSingle { output := "ok", cause := ExitCause.exitZero, duration := 1 }
          "a1" 7 "cmd" "t"
          { executions := [("a1", { id := "a1", ctx := 5, stopped := true })],
            cancelled := [3] }).1) ∧
    ((handleMultiple
        (fun j => { output := toString j, cause := ExitCause.exitZero, duration := 1 })
        none 2 0 "a1" 7 "cmd" "t"
        { executions := [("a1", { id := "a1", ctx := 5, stopped := false })],
          cancelled := [3] }).2 =
      (handleMultiple
        (fun j => { output := toString j, cause := ExitCause.exitZero, duration := 1 })
        none 2 0 "a1" 7 "cmd" "t"
        { executions := [("a1", { id := "a1", ctx := 5, stopped := true })],
          cancelled := [3] }).2 ∧
      eqModStopped
        (handleMultiple
          (fun j => { output := toString j, cause := ExitCause.exitZero, duration := 1 })
          none 2 0 "a1" 7 "cmd" "t"
          { executions := [("a1", { id := "a1", ctx := 5, stopped := false })],
            cancelled := [3] }).1
        (handleMultiple
          (fun j => { output := toString j, cause := ExitCause.exitZero, duration := 1 })
          none 2 0 "a1" 7 "cmd" "t"
          { executions := [("a1", { id := "a1", ctx := 5, stopped := true })],
            cancelled := [3] }).1) ∧
    ((handleLoop 0 "a1" 7 "cmd" "t"
        { executions := [("a1", { id := "a1", ctx := 5, stopped := false })],
          cancelled := [3] }).2 =
      (handleLoop 0 "a1" 7 "cmd" "t"
        { executions := [("a1", { id := "a1", ctx := 5, stopped := true })],
          cancelled := [3] }).2 ∧
      eqModStopped
        (handleLoop 0 "a1" 7 "cmd" "t"
          { executions := [("a1", { id := "a1", ctx := 5, stopped := false })],
            cancelled := [3] }).1
        (handleLoop 0 "a1" 7 "cmd" "t"
          { executions := [("a1", { id := "a1", ctx := 5, stopped := true })],
            cancelled := [3] }).1) ∧
    (allFlagsFalse
        { executions := [("a1", { id := "a1", ctx := 5, stopped := false })],
          cancelled := [3] } →
      allFlagsFalse (registerExecution "a1" 7
        { executions := [("a1", { id := "a1", ctx := 5, stopped := false })],
          cancelled := [3] }) ∧
      allFlagsFalse (cleanExecution "a1"
        { executions := [("a1", { id := "a1", ctx := 5, stopped := false })],
          cancelled := [3] }) ∧
      allFlagsFalse (handleStop "a1"
        { executions := [("a1", { id := "a1", ctx := 5, stopped := false })],
          cancelled := [3] }).1 ∧
      allFlagsFalse (handleStopAll
        { executions := [("a1", { id := "a1", ctx := 5, stopped := false })],
          cancelled := [3] }).1 ∧
      allFlagsFalse (handleSingle { output := "ok", cause := ExitCause.exitZero, duration := 1 }
        "a1" 7 "cmd" "t"
        { executions := [("a1", { id := "a1", ctx := 5, stopped := false })],
          cancelled := [3] }).1 ∧
      allFlagsFalse (handleMultiple
        (fun j => { output := toString j, cause := ExitCause.exitZero, duration := 1 })
        none 2 0 "a1" 7 "cmd" "t"
        { executions := [("a1", { id := "a1", ctx := 5, stopped := false })],
          cancelled := [3] }).1 ∧
      allFlagsFalse (handleLoop 0 "a1" 7 "cmd" "t"
        { executions := [("a1", { id := "a1", ctx := 5, stopped := false })],
          cancelled := [3] }).1) :=
  ⟨⟨rfl, rfl⟩,
    stopped_flag_unobservable
      { executions := [("a1", { id := "a1", ctx := 5, stopped := false })], cancelled := [3] }
      { executions := [("a1", { id := "a1", ctx := 5, stopped := true })], cancelled := [3] }
      "a1" 7 { output := "ok", cause := ExitCause.exitZero, duration := 1 }
      (fun j => { output := toString j, cause := ExitCause.exitZero, duration := 1 })
      none 2 0 "cmd" "t" ⟨rfl, rfl⟩⟩

/-- C3 witness at a concrete registration. -/
theorem register_then_stop_twice_witness :
    ("a1" : String) ≠ "" ∧
    ((handleStop "a1" (registerExecution "a1" 7 emptyState)).2 =
      okResponse { execID := "a1", status := "STOPPED" } ∧
    7 ∈ (handleStop "a1" (registerExecution "a1" 7 emptyState)).1.cancelled ∧
    lookupExec "a1" (handleStop "a1" (registerExecution "a1" 7 emptyState)).1 = none ∧
    (handleStop "a1" (handleStop "a1" (registerExecution "a1" 7 emptyState)).1).2 =
      errorResponse "无效的exec_id" 404 ∧
    (handleStop "a1" (handleStop "a1" (registerExecution "a1" 7 emptyState)).1).1 =
      (handleStop "a1" (registerExecution "a1" 7 emptyState)).1) :=
  ⟨by decide, register_then_stop_twice emptyState "a1" 7 (by decide)⟩

end Remotec
